import Mathlib

/-!
Verification of the coach-matching engine
(`src/matching-service/src/services/matching_service.py` together with the
models in `src/models/request_models.py` and the weight handling in
`src/config/settings.py`).

Python floats are modelled as rationals (`ℚ`), non-negative integer fields
(`int ... ge=0`) as `ℕ`.  `Optional[float]` becomes `Option ℚ`; Python's
truthiness of `Optional[float]` (both `None` and `0.0` are falsy) is modelled
explicitly at each use site by matching on the option and testing the payload
against `0`.  Fields of `MatchingRequest` that the matching engine never
reads (`title`, `description`, `priority`, date/metadata fields) are omitted;
every field read by the engine is present.
-/

/-- `ExpertiseLevel` enumeration from `request_models.py`. -/
inductive ExpertiseLevel where
  | BEGINNER
  | INTERMEDIATE
  | EXPERT
  | MASTER
deriving DecidableEq, Repr

/-- `SessionType` enumeration from `request_models.py`. -/
inductive SessionType where
  | ONE_ON_ONE
  | GROUP
  | WORKSHOP
  | MENTORING
deriving DecidableEq, Repr

/-- `SkillRequirement` model: a required skill with importance weight and
mandatory flag. -/
structure SkillRequirement where
  name : String
  level : ExpertiseLevel
  weight : ℚ
  mandatory : Bool
deriving DecidableEq, Repr

/-- `BudgetConstraint` model (fields read by the engine). -/
structure BudgetConstraint where
  max_hourly_rate : Option ℚ
  currency : String
deriving DecidableEq, Repr

/-- `AvailabilityRequirement` model. -/
structure AvailabilityRequirement where
  days_of_week : List ℕ
  time_slots : List String
  timezone : String
  flexibility : ℚ
deriving DecidableEq, Repr

/-- `MatchingRequest` model (fields read by the engine). -/
structure MatchingRequest where
  request_id : String
  session_type : SessionType
  skills_required : List SkillRequirement
  experience_level : ExpertiseLevel
  budget_constraints : BudgetConstraint
  availability_requirements : AvailabilityRequirement
  preferred_languages : List String
  participants_count : ℕ
deriving DecidableEq, Repr

/-- `CoachSkill` model. -/
structure CoachSkill where
  name : String
  level : ExpertiseLevel
  years_experience : ℕ
  certifications : List String
deriving DecidableEq, Repr

/-- `CoachAvailability` model. -/
structure CoachAvailability where
  day_of_week : ℕ
  start_time : String
  end_time : String
  timezone : String
deriving DecidableEq, Repr

/-- `CoachProfile` model. -/
structure CoachProfile where
  coach_id : String
  user_id : String
  first_name : String
  last_name : String
  email : String
  title : String
  company : String
  bio : String
  skills : List CoachSkill
  total_experience_years : ℕ
  availability : List CoachAvailability
  hourly_rate : ℚ
  currency : String
  rating : ℚ
  total_sessions : ℕ
  success_rate : ℚ
  response_time_hours : ℚ
  languages : List String
  max_participants : ℕ
  session_types : List SessionType
  is_active : Bool
  can_accept_new_clients : Bool
deriving DecidableEq, Repr

/-- `MatchResult` model. -/
structure MatchResult where
  coach : CoachProfile
  match_score : ℚ
  skill_score : ℚ
  experience_score : ℚ
  availability_score : ℚ
  price_score : ℚ
  rating_score : ℚ
  matching_skills : List String
  missing_skills : List String
  availability_overlap : ℚ
  price_difference_percent : ℚ
  confidence_level : ℚ
  recommendation_reason : String
deriving DecidableEq, Repr

/-- The five configured matching weights, field order as in
`Config.get_matching_weights` in `settings.py`. -/
structure MatchWeights where
  skills : ℚ
  experience : ℚ
  rating : ℚ
  availability : ℚ
  price : ℚ
deriving DecidableEq, Repr

/-- `Config.get_matching_weights` (`settings.py`): normalize the five weights
to sum to `1.0` when the total is positive. -/
def get_matching_weights (w : MatchWeights) : MatchWeights :=
  let total := w.skills + w.experience + w.rating + w.availability + w.price
  if 0 < total then
    ⟨w.skills / total, w.experience / total, w.rating / total,
      w.availability / total, w.price / total⟩
  else w

/-- The default weight configuration from `settings.py`
(`0.3, 0.25, 0.2, 0.15, 0.1`). -/
def default_weights : MatchWeights :=
  ⟨3/10, 1/4, 1/5, 3/20, 1/10⟩

/-- `Config.MIN_MATCH_SCORE` default (`0.6`). -/
def default_min_match_score : ℚ := 3/5

/-- `Config.MAX_MATCHES_PER_REQUEST` default (`10`). -/
def default_max_matches : ℕ := 10

/-- `_find_coach_skill`: case-insensitive lookup of a skill by name in the
coach's skill list. -/
def find_coach_skill (coach : CoachProfile) (skill_name : String) :
    Option CoachSkill :=
  coach.skills.find? (fun skill => skill.name.toLower == skill_name.toLower)

/-- The `level_map` of `_calculate_skill_level_match` (beginner=1 …
master=4); `dict.get(_, 2)` never falls back to its default because the map
is total on the enum. -/
def skill_level_rank : ExpertiseLevel → ℕ
  | .BEGINNER => 1
  | .INTERMEDIATE => 2
  | .EXPERT => 3
  | .MASTER => 4

/-- `_calculate_skill_level_match`: `1.0` when the coach's tier meets the
requirement, else the tier ratio. -/
def calculate_skill_level_match (coach_level required_level : ExpertiseLevel) : ℚ :=
  let coach_level_num : ℚ := skill_level_rank coach_level
  let required_level_num : ℚ := skill_level_rank required_level
  if required_level_num ≤ coach_level_num then 1
  else coach_level_num / required_level_num

/-- One required skill's contribution to the running sum in
`_calculate_skill_score`: found skill contributes
`min(level_match + min(years/5, 0.2), 1) * weight`; a missing mandatory
skill contributes `-0.5 * weight`; a missing optional skill contributes
nothing. -/
def skill_score_term (coach : CoachProfile) (required_skill : SkillRequirement) : ℚ :=
  match find_coach_skill coach required_skill.name with
  | some coach_skill =>
      let level_score :=
        calculate_skill_level_match coach_skill.level required_skill.level
      let exp_bonus := min ((coach_skill.years_experience : ℚ) / 5) (1/5)
      min (level_score + exp_bonus) 1 * required_skill.weight
  | none =>
      if required_skill.mandatory then -(1/2) * required_skill.weight else 0

/-- `_calculate_skill_score`: neutral `0.5` with no required skills or zero
total weight, otherwise the weight-normalized running sum clamped below
at `0`. -/
def calculate_skill_score (coach : CoachProfile) (request : MatchingRequest) : ℚ :=
  if request.skills_required = [] then 1/2
  else
    let total_weight := (request.skills_required.map (·.weight)).sum
    if total_weight = 0 then 1/2
    else
      let score := (request.skills_required.map (skill_score_term coach)).sum
      max (score / total_weight) 0

/-- The `level_map` of `_calculate_experience_score` (required years per
tier: 1, 3, 6, 10); the `dict.get` default `3` is unreachable. -/
def experience_level_years : ExpertiseLevel → ℕ
  | .BEGINNER => 1
  | .INTERMEDIATE => 3
  | .EXPERT => 6
  | .MASTER => 10

/-- `_calculate_experience_score`. -/
def calculate_experience_score (coach : CoachProfile) (request : MatchingRequest) : ℚ :=
  let required_years : ℚ := experience_level_years request.experience_level
  if required_years ≤ (coach.total_experience_years : ℚ) then
    let bonus := min (((coach.total_experience_years : ℚ) - required_years) / 10) (3/10)
    min (1 + bonus) 1
  else
    (coach.total_experience_years : ℚ) / required_years

/-- The coach's weekday list, as in
`set(avail['day_of_week'] for avail in coach.availability)`. -/
def coach_days (coach : CoachProfile) : List ℕ :=
  coach.availability.map (·.day_of_week)

/-- Distinct required weekdays of a request
(`set(request.availability_requirements.days_of_week)`). -/
def request_days (request : MatchingRequest) : List ℕ :=
  request.availability_requirements.days_of_week.dedup

/-- Distinct required weekdays on which the coach is available
(`request_days.intersection(coach_days)`). -/
def overlap_days (coach : CoachProfile) (request : MatchingRequest) : List ℕ :=
  (request_days request).filter (fun d => (coach_days coach).contains d)

/-- `_calculate_availability_score`. -/
def calculate_availability_score (coach : CoachProfile) (request : MatchingRequest) : ℚ :=
  if coach.availability = [] ∨ request.availability_requirements.days_of_week = [] then
    1/2
  else if overlap_days coach request = [] then 0
  else
    let overlap_ratio :=
      ((overlap_days coach request).length : ℚ) / ((request_days request).length : ℚ)
    let flexibility_bonus := request.availability_requirements.flexibility * (1/5)
    min (overlap_ratio + flexibility_bonus) 1

/-- `_calculate_price_score`.  `if not max_hourly_rate` is Python truthiness:
both `None` and `0.0` take the neutral branch. -/
def calculate_price_score (coach : CoachProfile) (request : MatchingRequest) : ℚ :=
  match request.budget_constraints.max_hourly_rate with
  | none => 1/2
  | some max_rate =>
    if max_rate = 0 then 1/2
    else
      let coach_rate := coach.hourly_rate
      if coach_rate ≤ max_rate then
        if coach_rate ≤ max_rate * (4/5) then 1 else 4/5
      else
        let overage_ratio := (coach_rate - max_rate) / max_rate
        max 0 (1/2 - overage_ratio)

/-- `_calculate_rating_score`. -/
def calculate_rating_score (coach : CoachProfile) : ℚ :=
  if coach.rating = 0 then 1/2
  else
    let base_score := coach.rating / 5
    let session_bonus := min ((coach.total_sessions : ℚ) / 100) (1/5)
    let success_bonus := coach.success_rate * (1/10)
    min (base_score + session_bonus + success_bonus) 1

/-- `_get_matching_skills`. -/
def get_matching_skills (coach : CoachProfile) (request : MatchingRequest) : List String :=
  (request.skills_required.filter
    (fun required_skill => (find_coach_skill coach required_skill.name).isSome)).map (·.name)

/-- `_get_missing_skills`. -/
def get_missing_skills (coach : CoachProfile) (request : MatchingRequest) : List String :=
  (request.skills_required.filter
    (fun required_skill => (find_coach_skill coach required_skill.name).isNone)).map (·.name)

/-- `_calculate_availability_overlap`. -/
def calculate_availability_overlap (coach : CoachProfile) (request : MatchingRequest) : ℚ :=
  if request.availability_requirements.days_of_week = [] then 0
  else
    ((overlap_days coach request).length : ℚ) / ((request_days request).length : ℚ)

/-- `_calculate_price_difference`; the same `Optional[float]` truthiness as
in the price score, so a `0` ceiling yields `0.0` without dividing. -/
def calculate_price_difference (coach : CoachProfile) (request : MatchingRequest) : ℚ :=
  match request.budget_constraints.max_hourly_rate with
  | none => 0
  | some max_rate =>
    if max_rate = 0 then 0
    else ((coach.hourly_rate - max_rate) / max_rate) * 100

/-- `_generate_recommendation_reason`. -/
def generate_recommendation_reason (coach : CoachProfile)
    (skill_score experience_score rating_score : ℚ) : String :=
  let reasons : List String :=
    (if 4/5 < skill_score then ["excellent skill match"]
     else if 3/5 < skill_score then ["good skill alignment"] else []) ++
    (if 4/5 < experience_score then ["extensive experience"] else []) ++
    (if 4/5 < rating_score then ["highly rated"] else []) ++
    (if 50 < coach.total_sessions then ["proven track record"] else [])
  let reasons := if reasons = [] then ["meets basic requirements"] else reasons
  "Recommended for " ++ String.intercalate ", " reasons

/-- `_calculate_confidence_level`. -/
def calculate_confidence_level (skill_score experience_score availability_score : ℚ)
    (coach : CoachProfile) : ℚ :=
  let base_confidence := (skill_score + experience_score + availability_score) / 3
  let base_confidence :=
    if 20 < coach.total_sessions then base_confidence + 1/10 else base_confidence
  let base_confidence :=
    if 9/2 < coach.rating then base_confidence + 1/10 else base_confidence
  min base_confidence 1

/-- `_calculate_match_score`: the five sub-scores, the weighted overall score
clamped at `1.0`, and the ancillary fields of a `MatchResult`. -/
def calculate_match_score (weights : MatchWeights) (coach : CoachProfile)
    (request : MatchingRequest) : MatchResult :=
  let skill_score := calculate_skill_score coach request
  let experience_score := calculate_experience_score coach request
  let availability_score := calculate_availability_score coach request
  let price_score := calculate_price_score coach request
  let rating_score := calculate_rating_score coach
  let overall_score :=
    skill_score * weights.skills +
    experience_score * weights.experience +
    availability_score * weights.availability +
    price_score * weights.price +
    rating_score * weights.rating
  { coach := coach
    match_score := min overall_score 1
    skill_score := skill_score
    experience_score := experience_score
    availability_score := availability_score
    price_score := price_score
    rating_score := rating_score
    matching_skills := get_matching_skills coach request
    missing_skills := get_missing_skills coach request
    availability_overlap := calculate_availability_overlap coach request
    price_difference_percent := calculate_price_difference coach request
    confidence_level :=
      calculate_confidence_level skill_score experience_score availability_score coach
    recommendation_reason :=
      generate_recommendation_reason coach skill_score experience_score rating_score }

/-- `_has_availability_overlap`: non-empty intersection of required and
available weekday sets. -/
def has_availability_overlap (coach : CoachProfile) (request : MatchingRequest) : Bool :=
  request.availability_requirements.days_of_week.any
    (fun d => (coach_days coach).contains d)

/-- The budget clause of `_apply_hard_filters`:
`request.budget_constraints.max_hourly_rate and coach.hourly_rate > max` —
with Python truthiness, a `None` or `0` ceiling never eliminates. -/
def budget_eliminates (request : MatchingRequest) (coach : CoachProfile) : Bool :=
  match request.budget_constraints.max_hourly_rate with
  | none => false
  | some max_rate =>
    if max_rate = 0 then false else decide (max_rate < coach.hourly_rate)

/-- `_apply_hard_filters`: the source's loop over the coach list with one
`continue` per elimination condition. -/
def apply_hard_filters (coaches : List CoachProfile) (request : MatchingRequest) :
    List CoachProfile :=
  match coaches with
  | [] => []
  | coach :: rest =>
    if ¬ (request.session_type ∈ coach.session_types) then
      apply_hard_filters rest request
    else if budget_eliminates request coach then
      apply_hard_filters rest request
    else if coach.max_participants < request.participants_count then
      apply_hard_filters rest request
    else if ¬ (request.preferred_languages.any (fun lang => coach.languages.contains lang)) then
      apply_hard_filters rest request
    else if ¬ has_availability_overlap coach request then
      apply_hard_filters rest request
    else
      coach :: apply_hard_filters rest request

/-- The eligibility filter of `_get_available_coaches`: active coaches that
accept new clients. -/
def available_coaches (roster : List CoachProfile) : List CoachProfile :=
  roster.filter (fun coach => coach.is_active && coach.can_accept_new_clients)

/-- The comparison handed to the sort in `find_matches`
(`sort(key=lambda x: x.match_score, reverse=True)`): descending by overall
score. -/
def match_sort_le (a b : MatchResult) : Bool :=
  decide (b.match_score ≤ a.match_score)

/-- The scoring loop of `find_matches` with its per-coach `try/except`: a
scorer outcome of `Except.error` models an exception raised while scoring
that coach — the coach is skipped; an `ok` result is kept when it reaches
the minimum score. -/
def scored_candidates_with (scorer : CoachProfile → Except String MatchResult)
    (min_score : ℚ) (coaches : List CoachProfile) : List MatchResult :=
  coaches.foldr
    (fun coach acc =>
      match scorer coach with
      | .ok result =>
          if min_score ≤ result.match_score then result :: acc else acc
      | .error _ => acc)
    []

/-- `find_matches` with an explicit (possibly failing) scorer: eligibility
filter, early return on an empty roster, hard filters, early return on an
empty survivor set, scoring loop with threshold, stable descending sort,
truncation. -/
def find_matches_with (scorer : CoachProfile → Except String MatchResult)
    (min_score : ℚ) (max_matches : ℕ)
    (roster : List CoachProfile) (request : MatchingRequest) : List MatchResult :=
  let coaches := available_coaches roster
  if coaches = [] then []
  else
    let filtered_coaches := apply_hard_filters coaches request
    if filtered_coaches = [] then []
    else
      ((scored_candidates_with scorer min_score filtered_coaches).mergeSort
        match_sort_le).take max_matches

/-- `find_matches` with the actual scorer `_calculate_match_score`, which
raises no exception on well-typed data. -/
def find_matches (weights : MatchWeights) (min_score : ℚ) (max_matches : ℕ)
    (roster : List CoachProfile) (request : MatchingRequest) : List MatchResult :=
  find_matches_with (fun coach => Except.ok (calculate_match_score weights coach request))
    min_score max_matches roster request

/-- Spec-side survivor predicate for the hard filter, written after the five
elimination conditions as the specification lists them: a provider survives
when its session types include the request's session type, no set (nonzero)
budget ceiling is exceeded by its hourly rate (a zero ceiling counts as
unset, matching the engine's truthiness convention), its capacity covers the
participant count, it shares a spoken language with the preferred-language
list, and it shares a weekday with the required weekdays. -/
def survives_hard_filters (request : MatchingRequest) (coach : CoachProfile) : Bool :=
  decide (request.session_type ∈ coach.session_types) &&
  !(match request.budget_constraints.max_hourly_rate with
    | none => false
    | some ceiling => ceiling ≠ 0 && decide (ceiling < coach.hourly_rate)) &&
  decide (request.participants_count ≤ coach.max_participants) &&
  request.preferred_languages.any (fun lang => coach.languages.contains lang) &&
  request.availability_requirements.days_of_week.any
    (fun d => (coach.availability.map (·.day_of_week)).contains d)

/-- Replace only the request's budget ceiling, leaving everything else
unchanged. -/
def with_budget_ceiling (request : MatchingRequest) (ceiling : Option ℚ) :
    MatchingRequest :=
  { request with
    budget_constraints := { request.budget_constraints with max_hourly_rate := ceiling } }

/-- The first coach of `_get_mock_coaches`. -/
def mock_coach_sarah : CoachProfile :=
  { coach_id := "coach_1"
    user_id := "user_1"
    first_name := "Sarah"
    last_name := "Johnson"
    email := "sarah@example.com"
    title := "Senior Software Engineer"
    company := "Tech Corp"
    bio := "Experienced full-stack developer with expertise in React and Node.js"
    skills :=
      [ { name := "React", level := .EXPERT, years_experience := 6,
          certifications := ["React Certified Developer"] },
        { name := "Node.js", level := .EXPERT, years_experience := 5,
          certifications := [] } ]
    total_experience_years := 8
    availability :=
      [ { day_of_week := 1, start_time := "09:00", end_time := "17:00",
          timezone := "UTC-8" },
        { day_of_week := 3, start_time := "09:00", end_time := "17:00",
          timezone := "UTC-8" } ]
    hourly_rate := 150
    currency := "USD"
    rating := 24/5
    total_sessions := 127
    success_rate := 91/100
    response_time_hours := 4
    languages := ["English", "Spanish"]
    max_participants := 5
    session_types := [.ONE_ON_ONE, .GROUP]
    is_active := true
    can_accept_new_clients := true }

/-- The second coach of `_get_mock_coaches`. -/
def mock_coach_michael : CoachProfile :=
  { coach_id := "coach_2"
    user_id := "user_2"
    first_name := "Michael"
    last_name := "Chen"
    email := "michael@example.com"
    title := "Product Manager"
    company := "Innovation Labs"
    bio := "Product strategy expert with agile methodologies expertise"
    skills :=
      [ { name := "Product Strategy", level := .EXPERT, years_experience := 7,
          certifications := ["Certified Product Manager"] },
        { name := "Agile", level := .EXPERT, years_experience := 6,
          certifications := ["Scrum Master"] } ]
    total_experience_years := 10
    availability :=
      [ { day_of_week := 2, start_time := "10:00", end_time := "18:00",
          timezone := "UTC-8" } ]
    hourly_rate := 120
    currency := "USD"
    rating := 49/10
    total_sessions := 89
    success_rate := 94/100
    response_time_hours := 2
    languages := ["English", "Mandarin"]
    max_participants := 10
    session_types := [.GROUP, .WORKSHOP]
    is_active := true
    can_accept_new_clients := true }

/-- `_get_mock_coaches`: the fixed built-in sample roster. -/
def get_mock_coaches : List CoachProfile :=
  [mock_coach_sarah, mock_coach_michael]

/-- `_fetch_coaches_from_api`, with the network call and JSON parsing
abstracted into an `Except` outcome: `ok coaches` models an HTTP 200
response whose coach records parsed, anything else (an exception or a
non-200 status) falls back to the built-in sample roster — the function
itself never raises. -/
def fetch_coaches_from_api (api_outcome : Except Unit (List CoachProfile)) :
    List CoachProfile :=
  match api_outcome with
  | .ok coaches => coaches
  | .error _ => get_mock_coaches

/-- `_refresh_coach_data`, with the two external reads abstracted into
outcomes.  `cache_read` models `redis_service.get_all_coaches()` together
with the `CoachProfile(**coach)` parsing: `.error` means that step raised
(caught by the function's `except`, which keeps the previous roster when it
is non-empty and otherwise adopts the sample roster); `.ok cached` is the
returned list, and an empty list is falsy, so the engine falls through to
the upstream fetch.  Failures of the write-back `set_coach_data` loop never
change the resulting roster (the roster field is already assigned before the
loop, and the `except` keeps any non-empty roster), so the writes are not
modelled. -/
def refresh_coach_data (previous_roster : List CoachProfile)
    (cache_read : Except Unit (List CoachProfile))
    (api_outcome : Except Unit (List CoachProfile)) : List CoachProfile :=
  match cache_read with
  | .error _ =>
      if previous_roster = [] then get_mock_coaches else previous_roster
  | .ok cached =>
      if cached = [] then fetch_coaches_from_api api_outcome
      else cached

/-- The cache read failed to supply a roster: it raised, or it returned no
data. -/
def cache_read_failed (cache_read : Except Unit (List CoachProfile)) : Bool :=
  match cache_read with
  | .error _ => true
  | .ok cached => cached = []

/-- The upstream roster fetch failed (exception or non-200 status). -/
def api_fetch_failed (api_outcome : Except Unit (List CoachProfile)) : Bool :=
  match api_outcome with
  | .error _ => true
  | .ok _ => false

/-- The scored-and-thresholded survivor list in original iteration order:
the contents of `match_results` in `find_matches` just before the sort. -/
def scored_survivors (weights : MatchWeights) (min_score : ℚ)
    (roster : List CoachProfile) (request : MatchingRequest) : List MatchResult :=
  scored_candidates_with
    (fun coach => Except.ok (calculate_match_score weights coach request))
    min_score (apply_hard_filters (available_coaches roster) request)

/-! ## Concrete example inputs (used to instantiate the theorems) -/

/-- A concrete request: a group program for one participant, English,
weekdays 1 and 2, flexibility `0.5`, budget ceiling `50`, two mandatory
master-level skills `A` and `B` of weight `1`, expert experience level. -/
def example_request : MatchingRequest :=
  { request_id := "req_1"
    session_type := .GROUP
    skills_required :=
      [ { name := "A", level := .MASTER, weight := 1, mandatory := true },
        { name := "B", level := .MASTER, weight := 1, mandatory := true } ]
    experience_level := .EXPERT
    budget_constraints := { max_hourly_rate := some 50, currency := "USD" }
    availability_requirements :=
      { days_of_week := [1, 2], time_slots := [], timezone := "UTC",
        flexibility := 1/2 }
    preferred_languages := ["English"]
    participants_count := 1 }

/-- `example_request` without skill requirements. -/
def example_request_no_skills : MatchingRequest :=
  { example_request with skills_required := [] }

/-- `example_request` with an empty required-weekday list. -/
def example_request_no_days : MatchingRequest :=
  { example_request with
    availability_requirements :=
      { days_of_week := [], time_slots := [], timezone := "UTC",
        flexibility := 1/2 } }

/-- A coach with an empty skill list (otherwise the first sample coach). -/
def example_coach_no_skills : CoachProfile :=
  { mock_coach_sarah with skills := [] }

/-- `example_coach_no_skills` with a single added skill whose lowercased
name matches required skill `A` (beginner level, zero years). -/
def example_coach_with_a : CoachProfile :=
  { example_coach_no_skills with
    skills := [ { name := "a", level := .BEGINNER, years_experience := 0,
                  certifications := [] } ] }

/-! ## Hard-filter lemmas -/

/-- The budget component of `survives_hard_filters` is exactly the negation
of the loop's budget clause. -/
lemma survives_budget_component (request : MatchingRequest) (coach : CoachProfile) :
    (match request.budget_constraints.max_hourly_rate with
      | none => false
      | some ceiling => decide (ceiling ≠ 0) && decide (ceiling < coach.hourly_rate)) =
      budget_eliminates request coach := by
  unfold budget_eliminates
  cases h : request.budget_constraints.max_hourly_rate with
  | none => rfl
  | some ceiling =>
    by_cases hc : ceiling = 0 <;> simp [hc]

/-- The spec-side survivor predicate, rewritten as the conjunction of the
negations of the loop's five `continue` conditions. -/
lemma survives_hard_filters_eq (request : MatchingRequest) (coach : CoachProfile) :
    survives_hard_filters request coach =
      (decide (request.session_type ∈ coach.session_types) &&
       !budget_eliminates request coach &&
       !decide (coach.max_participants < request.participants_count) &&
       request.preferred_languages.any (fun lang => coach.languages.contains lang) &&
       has_availability_overlap coach request) := by
  unfold survives_hard_filters has_availability_overlap coach_days
  rw [survives_budget_component]
  have hp : decide (request.participants_count ≤ coach.max_participants) =
      !decide (coach.max_participants < request.participants_count) := by
    by_cases h : request.participants_count ≤ coach.max_participants
    · simp [h, Nat.not_lt.mpr h]
    · simp [h, Nat.lt_of_not_le h]
  rw [hp]

/-- One step of the hard-filter loop keeps the head exactly when the
spec-side survivor predicate holds. -/
lemma apply_hard_filters_cons (coach : CoachProfile) (rest : List CoachProfile)
    (request : MatchingRequest) :
    apply_hard_filters (coach :: rest) request =
      if survives_hard_filters request coach then
        coach :: apply_hard_filters rest request
      else apply_hard_filters rest request := by
  rw [survives_hard_filters_eq]
  show (if ¬ (request.session_type ∈ coach.session_types) then
      apply_hard_filters rest request
    else if budget_eliminates request coach then apply_hard_filters rest request
    else if coach.max_participants < request.participants_count then
      apply_hard_filters rest request
    else if ¬ (request.preferred_languages.any
        (fun lang => coach.languages.contains lang)) then
      apply_hard_filters rest request
    else if ¬ has_availability_overlap coach request then
      apply_hard_filters rest request
    else coach :: apply_hard_filters rest request) = _
  by_cases h1 : request.session_type ∈ coach.session_types
  · by_cases h2 : budget_eliminates request coach = true
    · simp [h1, h2]
    · by_cases h3 : coach.max_participants < request.participants_count
      · simp [h1, h2, h3]
      · by_cases h4 : request.preferred_languages.any
            (fun lang => coach.languages.contains lang) = true
        · by_cases h5 : has_availability_overlap coach request = true
          · simp only [List.any_eq_true, List.elem_iff] at h4
            simp [h1, h2, h3, h4, h5]
          · simp only [List.any_eq_true, List.elem_iff] at h4
            simp [h1, h2, h3, h4, h5]
        · rw [Bool.not_eq_true] at h4
          simp only [List.any_eq_false] at h4
          simp only [List.elem_iff] at h4
          simp [h1, h2, h3]
          rw [if_pos h4, if_neg]
          rintro ⟨⟨x, hx, hm⟩, -⟩
          exact h4 x hx hm
  · simp [h1]

/-- The hard filter is the order-preserving filter of the survivor
predicate. -/
lemma apply_hard_filters_eq_filter (coaches : List CoachProfile)
    (request : MatchingRequest) :
    apply_hard_filters coaches request =
      coaches.filter (survives_hard_filters request) := by
  induction coaches with
  | nil => rfl
  | cons coach rest ih =>
    rw [apply_hard_filters_cons, List.filter_cons, ih]

/-- C6: `_apply_hard_filters` is a pure, order-preserving filter — its output
is exactly the sublist of the input roster whose members violate none of the
five elimination conditions (`survives_hard_filters` is those conditions as
the specification lists them).  Purity and non-mutation hold by construction
in the embedding: the function reads its arguments and builds a fresh list. -/
theorem apply_hard_filters_is_order_preserving_filter
    (coaches : List CoachProfile) (request : MatchingRequest) :
    apply_hard_filters coaches request =
      coaches.filter (survives_hard_filters request) :=
  apply_hard_filters_eq_filter coaches request

/-- C2 counterexample: lowering a set budget ceiling of `50` to the stricter
ceiling `0` *increases* the survivor count of the hard filter from `0` to
`1` (the sample coach has hourly rate `150`): Python truthiness makes a `0`
ceiling behave as no ceiling at all. -/
theorem budget_monotonicity_fails_at_zero_ceiling :
    example_request_no_skills.budget_constraints.max_hourly_rate = some 50 ∧
    (0 : ℚ) ≤ 50 ∧
    (apply_hard_filters [mock_coach_sarah] example_request_no_skills).length <
      (apply_hard_filters [mock_coach_sarah]
        (with_budget_ceiling example_request_no_skills (some 0))).length := by
  refine ⟨rfl, by norm_num, ?_⟩
  decide

/-- C2 (amended): the hard filter is monotone in the budget ceiling provided
the stricter ceiling is positive (a zero ceiling is treated by the engine as
no ceiling): replacing the ceiling by a positive lower one — or adding one
where none was set — yields a survivor list that is a sublist of the
original survivors. -/
theorem hard_filter_monotone_in_positive_budget_ceiling
    (coaches : List CoachProfile) (request : MatchingRequest) (ceiling : ℚ)
    (hpos : 0 < ceiling)
    (hstricter : request.budget_constraints.max_hourly_rate = none ∨
      ∃ r, request.budget_constraints.max_hourly_rate = some r ∧ ceiling ≤ r) :
    List.Sublist (apply_hard_filters coaches (with_budget_ceiling request (some ceiling)))
      (apply_hard_filters coaches request) := by
  rw [apply_hard_filters_eq_filter, apply_hard_filters_eq_filter]
  apply List.monotone_filter_right
  intro coach hc
  rw [survives_hard_filters_eq] at hc ⊢
  simp only [Bool.and_eq_true] at hc ⊢
  obtain ⟨⟨⟨⟨h1, h2⟩, h3⟩, h4⟩, h5⟩ := hc
  have hrate : coach.hourly_rate ≤ ceiling := by
    simp only [budget_eliminates, with_budget_ceiling, Bool.not_eq_true'] at h2
    rw [if_neg (ne_of_gt hpos)] at h2
    simpa using h2
  refine ⟨⟨⟨⟨h1, ?_⟩, h3⟩, h4⟩, h5⟩
  simp only [budget_eliminates, Bool.not_eq_true']
  rcases hstricter with hnone | ⟨r, hr, hle⟩
  · rw [hnone]
  · rw [hr]
    by_cases hr0 : r = 0
    · simp [hr0]
    · simp [hr0, not_lt.mpr (hrate.trans hle)]

/-- Witness for the amended C2 theorem: tightening the ceiling from `50` to
the positive value `40` at a concrete roster. -/
theorem hard_filter_monotone_in_positive_budget_ceiling_witness :
    (0 : ℚ) < 40 ∧
    List.Sublist
      (apply_hard_filters [mock_coach_sarah]
        (with_budget_ceiling example_request_no_skills (some 40)))
      (apply_hard_filters [mock_coach_sarah] example_request_no_skills) :=
  ⟨by norm_num,
    hard_filter_monotone_in_positive_budget_ceiling [mock_coach_sarah]
      example_request_no_skills 40 (by norm_num)
      (Or.inr ⟨50, rfl, by norm_num⟩)⟩

/-- C9: a budget ceiling equal to `0` behaves exactly like no ceiling: the
budget hard-filter clause eliminates nobody (the filter output equals that
of the same request with the ceiling removed), the price sub-score is the
neutral `0.5`, and the price-difference percentage is `0` — so the engine
never reaches a division by a zero ceiling (`max_rate` is only used as a
divisor in branches guarded by its truthiness). -/
theorem zero_budget_ceiling_neutral (coaches : List CoachProfile)
    (coach : CoachProfile) (request : MatchingRequest)
    (h : request.budget_constraints.max_hourly_rate = some 0) :
    budget_eliminates request coach = false ∧
    apply_hard_filters coaches request =
      apply_hard_filters coaches (with_budget_ceiling request none) ∧
    calculate_price_score coach request = 1/2 ∧
    calculate_price_difference coach request = 0 := by
  refine ⟨?_, ?_, ?_, ?_⟩
  · simp [budget_eliminates, h]
  · rw [apply_hard_filters_eq_filter, apply_hard_filters_eq_filter]
    apply List.filter_congr
    intro c _
    rw [survives_hard_filters_eq, survives_hard_filters_eq]
    have hb : budget_eliminates request c =
        budget_eliminates (with_budget_ceiling request none) c := by
      simp [budget_eliminates, h, with_budget_ceiling]
    rw [hb]
    rfl
  · simp [calculate_price_score, h]
  · simp [calculate_price_difference, h]

/-- Witness for C9 at a concrete request with ceiling `0`. -/
theorem zero_budget_ceiling_neutral_witness :
    (with_budget_ceiling example_request (some 0)).budget_constraints.max_hourly_rate
        = some 0 ∧
    budget_eliminates (with_budget_ceiling example_request (some 0)) mock_coach_sarah
        = false ∧
    calculate_price_score mock_coach_sarah (with_budget_ceiling example_request (some 0))
        = 1/2 :=
  have h := zero_budget_ceiling_neutral [mock_coach_sarah] mock_coach_sarah
    (with_budget_ceiling example_request (some 0)) rfl
  ⟨rfl, h.1, h.2.2.1⟩

/-! ## Pipeline lemmas -/

/-- The early returns of `find_matches` are semantically redundant: the
pipeline always equals score–sort–truncate over the hard-filter
survivors. -/
lemma find_matches_with_eq (scorer : CoachProfile → Except String MatchResult)
    (min_score : ℚ) (max_matches : ℕ)
    (roster : List CoachProfile) (request : MatchingRequest) :
    find_matches_with scorer min_score max_matches roster request =
      ((scored_candidates_with scorer min_score
          (apply_hard_filters (available_coaches roster) request)).mergeSort
        match_sort_le).take max_matches := by
  unfold find_matches_with
  by_cases h1 : available_coaches roster = []
  · rw [if_pos h1, h1]
    simp [apply_hard_filters, scored_candidates_with]
  · rw [if_neg h1]
    by_cases h2 : apply_hard_filters (available_coaches roster) request = []
    · rw [if_pos h2, h2]
      simp [scored_candidates_with]
    · rw [if_neg h2]

/-- C10: with an empty required-weekday list the empty-intersection test of
the availability hard filter fails for every provider, so the hard filter
eliminates everybody and `find_matches` returns the empty list for any
roster — in particular the neutral-`0.5` branch of the availability
sub-score is unreachable through the `find_matches` pipeline for such a
request. -/
theorem empty_required_days_eliminates_all (weights : MatchWeights)
    (min_score : ℚ) (max_matches : ℕ) (coaches roster : List CoachProfile)
    (request : MatchingRequest)
    (h : request.availability_requirements.days_of_week = []) :
    apply_hard_filters coaches request = [] ∧
    find_matches weights min_score max_matches roster request = [] := by
  have hall : ∀ (cs : List CoachProfile), apply_hard_filters cs request = [] := by
    intro cs
    rw [apply_hard_filters_eq_filter]
    apply List.filter_eq_nil_iff.mpr
    intro c _
    rw [survives_hard_filters_eq]
    simp [has_availability_overlap, h]
  refine ⟨hall coaches, ?_⟩
  unfold find_matches
  rw [find_matches_with_eq, hall (available_coaches roster)]
  simp [scored_candidates_with]

/-- Witness for C10 at a concrete request with no required weekdays and the
sample roster. -/
theorem empty_required_days_eliminates_all_witness :
    example_request_no_days.availability_requirements.days_of_week = [] ∧
    find_matches default_weights default_min_match_score default_max_matches
      get_mock_coaches example_request_no_days = [] :=
  ⟨rfl,
    (empty_required_days_eliminates_all default_weights default_min_match_score
      default_max_matches get_mock_coaches get_mock_coaches
      example_request_no_days rfl).2⟩

/-! ## Roster refresh (C7) -/

/-- C7 counterexample: with a *non-empty* previous roster, a cache read that
returns no data and a failing upstream fetch, the refresh adopts the
built-in sample roster instead of retaining the previous roster — the
fetch's internal fallback runs before the outer exception handler ever sees
a failure, so the "retain previous roster" branch is bypassed. -/
theorem refresh_fallback_discards_previous_roster :
    cache_read_failed (.ok []) = true ∧
    api_fetch_failed (.error ()) = true ∧
    ([mock_coach_michael] : List CoachProfile) ≠ [] ∧
    refresh_coach_data [mock_coach_michael] (.ok []) (.error ()) ≠
      [mock_coach_michael] := by
  refine ⟨by decide, rfl, by simp, ?_⟩
  decide

/-- C7 (amended): when the cache read and the upstream fetch both fail, the
in-memory roster afterwards is always non-empty, but which roster survives
depends on *how* the cache read failed: if it raised, the previous roster is
retained when non-empty (otherwise the sample roster); if it merely returned
no data, the built-in sample roster is adopted regardless of the previous
roster.  `find_matches` on the resulting roster is total and returns a list
of at most the configured maximum length — it never raises. -/
theorem refresh_failure_roster_nonempty (previous_roster : List CoachProfile)
    (cache_read api_outcome : Except Unit (List CoachProfile))
    (hcache : cache_read_failed cache_read = true)
    (hapi : api_fetch_failed api_outcome = true) :
    refresh_coach_data previous_roster cache_read api_outcome ≠ [] ∧
    (cache_read = .error () →
      refresh_coach_data previous_roster cache_read api_outcome =
        if previous_roster = [] then get_mock_coaches else previous_roster) ∧
    (∀ cached, cache_read = .ok cached →
      refresh_coach_data previous_roster cache_read api_outcome = get_mock_coaches) ∧
    (∀ weights min_score max_matches request,
      (find_matches weights min_score max_matches
        (refresh_coach_data previous_roster cache_read api_outcome)
        request).length ≤ max_matches) := by
  have hlen : ∀ (weights : MatchWeights) (min_score : ℚ) (max_matches : ℕ)
      (roster : List CoachProfile) (request : MatchingRequest),
      (find_matches weights min_score max_matches roster request).length ≤
        max_matches := by
    intro weights min_score max_matches roster request
    unfold find_matches
    rw [find_matches_with_eq]
    exact List.length_take_le _ _
  cases cache_read with
  | error e =>
    cases e
    have hval : refresh_coach_data previous_roster (.error ()) api_outcome =
        if previous_roster = [] then get_mock_coaches else previous_roster := rfl
    refine ⟨?_, ?_, ?_, ?_⟩
    · rw [hval]
      by_cases hp : previous_roster = []
      · rw [if_pos hp]
        decide
      · rw [if_neg hp]
        exact hp
    · intro _
      exact hval
    · intro cached hc
      exact absurd hc (by simp)
    · intro w m x r
      exact hlen w m x _ r
  | ok cached =>
    have hcempty : cached = [] := by
      simpa [cache_read_failed] using hcache
    cases api_outcome with
    | ok _ => simp [api_fetch_failed] at hapi
    | error e2 =>
      cases e2
      have hval : refresh_coach_data previous_roster (.ok cached) (.error ()) =
          get_mock_coaches := by
        rw [refresh_coach_data, if_pos hcempty]
        rfl
      refine ⟨?_, ?_, ?_, ?_⟩
      · rw [hval]
        decide
      · intro hc
        exact absurd hc (by simp)
      · intro c hc
        exact hval
      · intro w m x r
        exact hlen w m x _ r

/-- Witness for the amended C7 theorem: empty previous roster, raising cache
read, failing fetch — the sample roster is adopted and is non-empty. -/
theorem refresh_failure_roster_nonempty_witness :
    cache_read_failed (.error ()) = true ∧
    api_fetch_failed (.error ()) = true ∧
    refresh_coach_data [] (.error ()) (.error ()) ≠ [] :=
  ⟨rfl, rfl, (refresh_failure_roster_nonempty [] (.error ()) (.error ()) rfl rfl).1⟩

/-! ## Per-candidate scoring failure (C8) -/

/-- One step of the scoring loop. -/
lemma scored_candidates_with_cons (scorer : CoachProfile → Except String MatchResult)
    (min_score : ℚ) (coach : CoachProfile) (rest : List CoachProfile) :
    scored_candidates_with scorer min_score (coach :: rest) =
      match scorer coach with
      | .ok result =>
          if min_score ≤ result.match_score then
            result :: scored_candidates_with scorer min_score rest
          else scored_candidates_with scorer min_score rest
      | .error _ => scored_candidates_with scorer min_score rest := rfl

/-- Two filters commute. -/
lemma filter_swap {α : Type} (p q : α → Bool) (l : List α) :
    (l.filter p).filter q = (l.filter q).filter p := by
  rw [List.filter_filter, List.filter_filter]
  apply List.filter_congr
  intro a _
  rw [Bool.and_comm]

/-- Removing the faulty coach from the input before scoring gives the same
loop output as running the faulty scorer on the full input. -/
lemma scored_candidates_with_faulty
    (scorer faulty_scorer : CoachProfile → Except String MatchResult)
    (bad : CoachProfile) (err : String)
    (hbad : faulty_scorer bad = .error err)
    (hsame : ∀ c, c ≠ bad → faulty_scorer c = scorer c)
    (min_score : ℚ) (coaches : List CoachProfile) :
    scored_candidates_with faulty_scorer min_score coaches =
      scored_candidates_with scorer min_score
        (coaches.filter (fun c => decide (c ≠ bad))) := by
  induction coaches with
  | nil => rfl
  | cons coach rest ih =>
    by_cases hc : coach = bad
    · subst hc
      rw [scored_candidates_with_cons, hbad,
        List.filter_cons_of_neg (by simp)]
      exact ih
    · rw [scored_candidates_with_cons, hsame coach hc,
        List.filter_cons_of_pos (by simp [hc]), scored_candidates_with_cons, ih]

/-- C8: if scoring one survivor raises, `find_matches` skips exactly that
provider and the full run equals the run on the roster with that provider
removed: all other survivors are scored and returned unchanged, and the
batch is never aborted. -/
theorem scoring_failure_skips_single_candidate
    (scorer faulty_scorer : CoachProfile → Except String MatchResult)
    (bad : CoachProfile) (err : String)
    (hbad : faulty_scorer bad = .error err)
    (hsame : ∀ c, c ≠ bad → faulty_scorer c = scorer c)
    (min_score : ℚ) (max_matches : ℕ)
    (roster : List CoachProfile) (request : MatchingRequest) :
    find_matches_with faulty_scorer min_score max_matches roster request =
      find_matches_with scorer min_score max_matches
        (roster.filter (fun c => decide (c ≠ bad))) request := by
  rw [find_matches_with_eq, find_matches_with_eq]
  have h1 : available_coaches (roster.filter (fun c => decide (c ≠ bad))) =
      (available_coaches roster).filter (fun c => decide (c ≠ bad)) := by
    unfold available_coaches
    exact filter_swap _ _ roster
  have h2 : apply_hard_filters
      ((available_coaches roster).filter (fun c => decide (c ≠ bad))) request =
      (apply_hard_filters (available_coaches roster) request).filter
        (fun c => decide (c ≠ bad)) := by
    rw [apply_hard_filters_eq_filter, apply_hard_filters_eq_filter]
    exact filter_swap _ _ _
  rw [h1, h2,
    scored_candidates_with_faulty scorer faulty_scorer bad err hbad hsame min_score]

/-- Witness for C8: a scorer that fails on the first sample coach produces,
on the sample roster, the same output as the healthy scorer on the roster
without that coach. -/
theorem scoring_failure_skips_single_candidate_witness :
    find_matches_with
      (fun c => if c = mock_coach_sarah then .error "scoring failure"
        else .ok (calculate_match_score default_weights c example_request_no_skills))
      default_min_match_score default_max_matches get_mock_coaches
      example_request_no_skills =
    find_matches_with
      (fun c => Except.ok (calculate_match_score default_weights c
        example_request_no_skills))
      default_min_match_score default_max_matches
      (get_mock_coaches.filter (fun c => decide (c ≠ mock_coach_sarah)))
      example_request_no_skills :=
  scoring_failure_skips_single_candidate
    (fun c => Except.ok (calculate_match_score default_weights c
      example_request_no_skills))
    (fun c => if c = mock_coach_sarah then .error "scoring failure"
      else .ok (calculate_match_score default_weights c example_request_no_skills))
    mock_coach_sarah "scoring failure" (if_pos rfl)
    (fun _ hc => if_neg hc) default_min_match_score default_max_matches
    get_mock_coaches example_request_no_skills

/-! ## Orchestration (C5) -/

/-- Every element the scoring loop emits reached the minimum score. -/
lemma mem_scored_candidates_with
    {scorer : CoachProfile → Except String MatchResult} {min_score : ℚ}
    {coaches : List CoachProfile} {r : MatchResult}
    (h : r ∈ scored_candidates_with scorer min_score coaches) :
    min_score ≤ r.match_score := by
  induction coaches with
  | nil => cases h
  | cons coach rest ih =>
    rw [scored_candidates_with_cons] at h
    cases hsc : scorer coach with
    | ok result =>
      simp only [hsc] at h
      by_cases hm : min_score ≤ result.match_score
      · rw [if_pos hm] at h
        rcases List.mem_cons.mp h with hr | hr
        · subst hr
          exact hm
        · exact ih hr
      · rw [if_neg hm] at h
        exact ih h
    | error e =>
      simp only [hsc] at h
      exact ih h

/-- `match_sort_le` is transitive. -/
lemma match_sort_le_trans (a b c : MatchResult)
    (hab : match_sort_le a b) (hbc : match_sort_le b c) : match_sort_le a c := by
  simp only [match_sort_le, decide_eq_true_eq] at *
  exact le_trans hbc hab

/-- `match_sort_le` is total. -/
lemma match_sort_le_total (a b : MatchResult) :
    match_sort_le a b || match_sort_le b a := by
  simp only [match_sort_le]
  rcases le_total a.match_score b.match_score with h | h <;> simp [h]

/-- C5: the list returned by `find_matches` contains only results at or
above the configured minimum score, is in non-increasing order of overall
score, has at most the configured maximum length, and is stable: for every
score value, the results carrying that score appear in the same relative
order as in the scored survivor list in original iteration order (the list
built before sorting). -/
theorem find_matches_threshold_sorted_stable_truncated
    (weights : MatchWeights) (min_score : ℚ) (max_matches : ℕ)
    (roster : List CoachProfile) (request : MatchingRequest) :
    (∀ r ∈ find_matches weights min_score max_matches roster request,
      min_score ≤ r.match_score) ∧
    (find_matches weights min_score max_matches roster request).Pairwise
      (fun a b => b.match_score ≤ a.match_score) ∧
    (find_matches weights min_score max_matches roster request).length ≤
      max_matches ∧
    (∀ q : ℚ,
      List.Sublist
        ((find_matches weights min_score max_matches roster request).filter
          (fun r => decide (r.match_score = q)))
        ((scored_survivors weights min_score roster request).filter
          (fun r => decide (r.match_score = q)))) := by
  have hout : find_matches weights min_score max_matches roster request =
      ((scored_survivors weights min_score roster request).mergeSort
        match_sort_le).take max_matches := by
    unfold find_matches scored_survivors
    rw [find_matches_with_eq]
  rw [hout]
  set pre := scored_survivors weights min_score roster request with hpre
  refine ⟨?_, ?_, List.length_take_le _ _, ?_⟩
  · intro r hr
    have hmem : r ∈ pre := by
      have h1 : r ∈ pre.mergeSort match_sort_le :=
        (List.take_sublist _ _).subset hr
      exact List.mem_mergeSort.mp h1
    exact mem_scored_candidates_with hmem
  · have hsorted : (pre.mergeSort match_sort_le).Pairwise
        (fun a b => match_sort_le a b = true) :=
      List.sorted_mergeSort match_sort_le_trans match_sort_le_total pre
    have hsorted2 : (pre.mergeSort match_sort_le).Pairwise
        (fun a b => b.match_score ≤ a.match_score) := by
      apply hsorted.imp
      intro a b hab
      simpa [match_sort_le] using hab
    exact hsorted2.sublist (List.take_sublist _ _)
  · intro q
    have hfil1 : List.Sublist
        (((pre.mergeSort match_sort_le).take max_matches).filter
          (fun r => decide (r.match_score = q)))
        ((pre.mergeSort match_sort_le).filter
          (fun r => decide (r.match_score = q))) :=
      List.Sublist.filter _ (List.take_sublist _ _)
    have heq : (pre.mergeSort match_sort_le).filter
        (fun r => decide (r.match_score = q)) =
        pre.filter (fun r => decide (r.match_score = q)) := by
      have hpair : (pre.filter (fun r => decide (r.match_score = q))).Pairwise
          (fun a b => match_sort_le a b = true) := by
        apply List.pairwise_of_forall_mem_list
        intro a ha b hb
        have ha2 : a.match_score = q := by
          simpa using (List.mem_filter.mp ha).2
        have hb2 : b.match_score = q := by
          simpa using (List.mem_filter.mp hb).2
        simp [match_sort_le, ha2, hb2]
      have hsub : List.Sublist (pre.filter (fun r => decide (r.match_score = q)))
          (pre.mergeSort match_sort_le) :=
        List.sublist_mergeSort match_sort_le_trans match_sort_le_total hpair
          (List.filter_sublist pre)
      have hsub2 : List.Sublist (pre.filter (fun r => decide (r.match_score = q)))
          ((pre.mergeSort match_sort_le).filter
            (fun r => decide (r.match_score = q))) := by
        have h3 := List.Sublist.filter (fun r => decide (r.match_score = q)) hsub
        rwa [List.filter_filter, List.filter_congr
          (fun a _ => Bool.and_self (decide (a.match_score = q)))] at h3
      have hlen : ((pre.mergeSort match_sort_le).filter
          (fun r => decide (r.match_score = q))).length =
          (pre.filter (fun r => decide (r.match_score = q))).length := by
        rw [← List.countP_eq_length_filter, ← List.countP_eq_length_filter]
        exact (List.mergeSort_perm pre match_sort_le).countP_eq _
      exact (hsub2.eq_of_length hlen.symm).symm
    rw [heq] at hfil1
    exact hfil1

/-! ## Skill score (C3) -/

/-- Evaluation form for `String.toLower` on concrete strings. -/
lemma toLower_eval (s : String) : s.toLower = ⟨s.data.map Char.toLower⟩ :=
  String.map_eq Char.toLower s

/-- `_find_coach_skill` on a coach with one extra skill in front. -/
lemma find_coach_skill_cons (coach : CoachProfile) (sk : CoachSkill)
    (skill_name : String) :
    find_coach_skill { coach with skills := sk :: coach.skills } skill_name =
      if sk.name.toLower == skill_name.toLower then some sk
      else find_coach_skill coach skill_name := by
  unfold find_coach_skill
  simp only [List.find?]
  cases hb : sk.name.toLower == skill_name.toLower
  · simp [hb]
  · simp [hb]

/-- `_find_coach_skill` only depends on the lowercased lookup key. -/
lemma find_coach_skill_key_congr (coach : CoachProfile) {a b : String}
    (h : a.toLower = b.toLower) :
    find_coach_skill coach a = find_coach_skill coach b := by
  unfold find_coach_skill
  rw [h]

/-- The skill-level match ratio is non-negative. -/
lemma skill_level_match_nonneg (coach_level required_level : ExpertiseLevel) :
    0 ≤ calculate_skill_level_match coach_level required_level := by
  unfold calculate_skill_level_match
  dsimp only
  split
  · norm_num
  · positivity

/-- The clamped per-skill factor for a found skill lies in `[0, 1]`. -/
lemma skill_found_value_nonneg (sk : CoachSkill) (required_level : ExpertiseLevel) :
    0 ≤ min (calculate_skill_level_match sk.level required_level +
      min ((sk.years_experience : ℚ) / 5) (1/5)) 1 := by
  apply le_min _ zero_le_one
  have h1 := skill_level_match_nonneg sk.level required_level
  have h2 : (0:ℚ) ≤ min ((sk.years_experience : ℚ) / 5) (1/5) :=
    le_min (by positivity) (by norm_num)
  linarith

/-- Each required skill contributes at most its own weight to the running
sum. -/
lemma skill_score_term_le_weight (coach : CoachProfile) (t : SkillRequirement)
    (hw : 0 ≤ t.weight) : skill_score_term coach t ≤ t.weight := by
  unfold skill_score_term
  cases h : find_coach_skill coach t.name with
  | some cs =>
    simp only [h]
    calc min (calculate_skill_level_match cs.level t.level +
          min ((cs.years_experience : ℚ) / 5) (1/5)) 1 * t.weight
        ≤ 1 * t.weight := mul_le_mul_of_nonneg_right (min_le_right _ _) hw
      _ = t.weight := one_mul _
  | none =>
    simp only [h]
    split
    · linarith
    · exact hw

/-- Adding a skill whose lowercased name matches a requirement the coach is
missing never lowers any per-requirement contribution. -/
lemma skill_score_term_mono (coach : CoachProfile) (sk : CoachSkill)
    (s : SkillRequirement)
    (hmiss : find_coach_skill coach s.name = none)
    (hname : sk.name.toLower = s.name.toLower)
    (t : SkillRequirement) (hw : 0 ≤ t.weight) :
    skill_score_term coach t ≤
      skill_score_term { coach with skills := sk :: coach.skills } t := by
  rw [skill_score_term, skill_score_term, find_coach_skill_cons]
  by_cases hb : (sk.name.toLower == t.name.toLower) = true
  · have htkey : t.name.toLower = s.name.toLower := by
      rw [← beq_iff_eq.mp hb, hname]
    have ht : find_coach_skill coach t.name = none := by
      rw [find_coach_skill_key_congr coach htkey, hmiss]
    simp only [if_pos hb, ht]
    have hpos : 0 ≤ min (calculate_skill_level_match sk.level t.level +
        min ((sk.years_experience : ℚ) / 5) (1/5)) 1 * t.weight :=
      mul_nonneg (skill_found_value_nonneg sk t.level) hw
    split
    · linarith
    · exact hpos
  · simp only [if_neg hb]
    exact le_refl _

/-- C3 counterexample: a request with two mandatory weight-`1` skills `A`
and `B`, a provider lacking both, and the same provider with a matching
skill for `A` added — both skill sub-scores clamp to `0`, so the score with
the mandatory skill missing is *not* strictly lower. -/
theorem missing_mandatory_skill_not_strictly_lower :
    example_request.skills_required.head? =
      some { name := "A", level := .MASTER, weight := 1, mandatory := true } ∧
    find_coach_skill example_coach_no_skills "A" = none ∧
    example_coach_with_a.skills.head? =
      some { name := "a", level := .BEGINNER, years_experience := 0,
             certifications := [] } ∧
    "a".toLower = "A".toLower ∧
    calculate_skill_score example_coach_no_skills example_request =
      calculate_skill_score example_coach_with_a example_request := by
  have hfind_a : find_coach_skill example_coach_with_a "A" =
      some { name := "a", level := .BEGINNER, years_experience := 0,
             certifications := [] } := by
    have h : ("a".toLower == "A".toLower) = true := by
      rw [toLower_eval, toLower_eval]
      decide
    simp [find_coach_skill, example_coach_with_a, example_coach_no_skills,
      mock_coach_sarah, h]
  have hfind_b : find_coach_skill example_coach_with_a "B" = none := by
    have h : ("a".toLower == "B".toLower) = false := by
      rw [toLower_eval, toLower_eval]
      decide
    simp [find_coach_skill, example_coach_with_a, example_coach_no_skills,
      mock_coach_sarah, h]
  refine ⟨rfl, rfl, rfl, by rw [toLower_eval, toLower_eval]; decide, ?_⟩
  have h1 : calculate_skill_score example_coach_no_skills example_request = 0 := by
    norm_num [calculate_skill_score, example_request, skill_score_term,
      max_def, List.cons_ne_nil]
    norm_num [find_coach_skill, example_coach_no_skills, mock_coach_sarah]
  have h2 : calculate_skill_score example_coach_with_a example_request = 0 := by
    norm_num [calculate_skill_score, example_request, skill_score_term,
      hfind_a, hfind_b, max_def, calculate_skill_level_match,
      skill_level_rank, min_def, List.cons_ne_nil]
  rw [h1, h2]

/-- C3 (amended): for a provider missing a mandatory required skill, the
skill sub-score is *at most* the sub-score of the same provider with a
matching skill added (all requirement weights non-negative); strictness can
fail — e.g. when both normalized sums are clamped to `0`, as the
counterexample shows, or when the skill's weight is `0`. -/
theorem skill_score_le_with_mandatory_skill_added
    (coach : CoachProfile) (request : MatchingRequest) (s : SkillRequirement)
    (sk : CoachSkill)
    (_hs : s ∈ request.skills_required) (_hmand : s.mandatory = true)
    (hmiss : find_coach_skill coach s.name = none)
    (hname : sk.name.toLower = s.name.toLower)
    (hw : ∀ t ∈ request.skills_required, 0 ≤ t.weight) :
    calculate_skill_score coach request ≤
      calculate_skill_score { coach with skills := sk :: coach.skills } request := by
  unfold calculate_skill_score
  by_cases h0 : request.skills_required = []
  · rw [if_pos h0, if_pos h0]
  · rw [if_neg h0, if_neg h0]
    by_cases h1 : (request.skills_required.map (·.weight)).sum = 0
    · rw [if_pos h1, if_pos h1]
    · rw [if_neg h1, if_neg h1]
      have hw_sum_nonneg : 0 ≤ (request.skills_required.map (·.weight)).sum := by
        apply List.sum_nonneg
        intro x hx
        rcases List.mem_map.mp hx with ⟨t, ht, rfl⟩
        exact hw t ht
      have hpos : 0 < (request.skills_required.map (·.weight)).sum :=
        lt_of_le_of_ne hw_sum_nonneg (Ne.symm h1)
      apply max_le_max _ (le_refl 0)
      rw [div_le_div_iff_of_pos_right hpos]
      apply List.sum_le_sum
      intro t ht
      exact skill_score_term_mono coach sk s hmiss hname t (hw t ht)

/-- Witness for the amended C3 theorem at the counterexample's inputs. -/
theorem skill_score_le_with_mandatory_skill_added_witness :
    calculate_skill_score example_coach_no_skills example_request ≤
      calculate_skill_score
        { example_coach_no_skills with
          skills := { name := "a", level := .BEGINNER, years_experience := 0,
                      certifications := [] } :: example_coach_no_skills.skills }
        example_request :=
  skill_score_le_with_mandatory_skill_added example_coach_no_skills
    example_request
    { name := "A", level := .MASTER, weight := 1, mandatory := true }
    { name := "a", level := .BEGINNER, years_experience := 0,
      certifications := [] }
    (List.mem_cons_self _ _) rfl rfl
    (by rw [toLower_eval, toLower_eval]; decide)
    (by decide)

/-! ## Experience score (C4) -/

/-- The derived minimum-years requirement is positive for every tier. -/
lemma experience_level_years_pos (lvl : ExpertiseLevel) :
    (0 : ℚ) < (experience_level_years lvl : ℚ) := by
  cases lvl <;> norm_num [experience_level_years]

/-- C4: when the provider's total experience years meet the requirement
derived from the request's tier (beginner=1, intermediate=3, expert=6,
master=10), the experience sub-score is exactly `1.0` — the extra-years
bonus is swallowed by the `min(…, 1.0)` clamp; below the requirement the
sub-score is exactly `years / required`. -/
theorem experience_score_exact_cases (coach : CoachProfile)
    (request : MatchingRequest) :
    ((experience_level_years request.experience_level : ℚ) ≤
        (coach.total_experience_years : ℚ) →
      calculate_experience_score coach request = 1) ∧
    ((coach.total_experience_years : ℚ) <
        (experience_level_years request.experience_level : ℚ) →
      calculate_experience_score coach request =
        (coach.total_experience_years : ℚ) /
          (experience_level_years request.experience_level : ℚ)) := by
  constructor
  · intro h
    unfold calculate_experience_score
    rw [if_pos h]
    have hb : (0:ℚ) ≤ min (((coach.total_experience_years : ℚ) -
        (experience_level_years request.experience_level : ℚ)) / 10) (3/10) := by
      apply le_min
      · apply div_nonneg (by linarith) (by norm_num)
      · norm_num
    exact min_eq_right (by linarith)
  · intro h
    unfold calculate_experience_score
    rw [if_neg (not_le.mpr h)]

/-- Witness for C4, exercising both branches at concrete inputs: the first
sample coach (8 years against a required 6) scores exactly `1`; the same
coach reduced to 4 years scores exactly `4/6`. -/
theorem experience_score_exact_cases_witness :
    calculate_experience_score mock_coach_sarah example_request = 1 ∧
    calculate_experience_score
      { mock_coach_sarah with total_experience_years := 4 } example_request =
      (4 : ℚ) / 6 := by
  constructor
  · exact (experience_score_exact_cases mock_coach_sarah example_request).1
      (by norm_num [experience_level_years, example_request, mock_coach_sarah])
  · have h := (experience_score_exact_cases
      { mock_coach_sarah with total_experience_years := 4 } example_request).2
      (by norm_num [experience_level_years, example_request, mock_coach_sarah])
    rw [h]
    norm_num [experience_level_years, example_request, mock_coach_sarah]

/-! ## Score bounds (C1) -/

/-- The skill sub-score lies in `[0, 1]` when the requirement weights are
non-negative. -/
lemma calculate_skill_score_bounds (coach : CoachProfile)
    (request : MatchingRequest)
    (hw : ∀ t ∈ request.skills_required, 0 ≤ t.weight) :
    0 ≤ calculate_skill_score coach request ∧
      calculate_skill_score coach request ≤ 1 := by
  unfold calculate_skill_score
  by_cases h0 : request.skills_required = []
  · rw [if_pos h0]
    norm_num
  · rw [if_neg h0]
    by_cases h1 : (request.skills_required.map (·.weight)).sum = 0
    · rw [if_pos h1]
      norm_num
    · rw [if_neg h1]
      have hnn : 0 ≤ (request.skills_required.map (·.weight)).sum := by
        apply List.sum_nonneg
        intro x hx
        rcases List.mem_map.mp hx with ⟨t, ht, rfl⟩
        exact hw t ht
      have hpos : 0 < (request.skills_required.map (·.weight)).sum :=
        lt_of_le_of_ne hnn (Ne.symm h1)
      constructor
      · exact le_max_right _ _
      · apply max_le _ zero_le_one
        rw [div_le_one hpos]
        apply List.sum_le_sum
        intro t ht
        exact skill_score_term_le_weight coach t (hw t ht)

/-- The experience sub-score lies in `[0, 1]` unconditionally. -/
lemma calculate_experience_score_bounds (coach : CoachProfile)
    (request : MatchingRequest) :
    0 ≤ calculate_experience_score coach request ∧
      calculate_experience_score coach request ≤ 1 := by
  have hywpos := experience_level_years_pos request.experience_level
  unfold calculate_experience_score
  by_cases h : (experience_level_years request.experience_level : ℚ) ≤
      (coach.total_experience_years : ℚ)
  · rw [if_pos h]
    constructor
    · apply le_min _ zero_le_one
      have hb : (0:ℚ) ≤ min (((coach.total_experience_years : ℚ) -
          (experience_level_years request.experience_level : ℚ)) / 10) (3/10) :=
        le_min (div_nonneg (by linarith) (by norm_num)) (by norm_num)
      linarith
    · exact min_le_right _ _
  · rw [if_neg h]
    constructor
    · exact div_nonneg (Nat.cast_nonneg _) (le_of_lt hywpos)
    · exact (div_le_one hywpos).mpr (le_of_lt (not_le.mp h))

/-- The availability sub-score lies in `[0, 1]` when the request's
flexibility is non-negative. -/
lemma calculate_availability_score_bounds (coach : CoachProfile)
    (request : MatchingRequest)
    (hflex : 0 ≤ request.availability_requirements.flexibility) :
    0 ≤ calculate_availability_score coach request ∧
      calculate_availability_score coach request ≤ 1 := by
  unfold calculate_availability_score
  by_cases h1 : coach.availability = [] ∨
      request.availability_requirements.days_of_week = []
  · rw [if_pos h1]
    norm_num
  · rw [if_neg h1]
    by_cases h2 : overlap_days coach request = []
    · rw [if_pos h2]
      norm_num
    · rw [if_neg h2]
      constructor
      · apply le_min _ zero_le_one
        have hr : (0:ℚ) ≤ ((overlap_days coach request).length : ℚ) /
            ((request_days request).length : ℚ) :=
          div_nonneg (Nat.cast_nonneg _) (Nat.cast_nonneg _)
        have hf : (0:ℚ) ≤ request.availability_requirements.flexibility * (1/5) :=
          mul_nonneg hflex (by norm_num)
        linarith
      · exact min_le_right _ _

/-- The price sub-score lies in `[0, 1]` when any set ceiling is
non-negative. -/
lemma calculate_price_score_bounds (coach : CoachProfile)
    (request : MatchingRequest)
    (hbudget : ∀ m, request.budget_constraints.max_hourly_rate = some m → 0 ≤ m) :
    0 ≤ calculate_price_score coach request ∧
      calculate_price_score coach request ≤ 1 := by
  unfold calculate_price_score
  cases hm : request.budget_constraints.max_hourly_rate with
  | none => norm_num
  | some m =>
    simp only []
    by_cases hm0 : m = 0
    · rw [if_pos hm0]
      norm_num
    · rw [if_neg hm0]
      have hmpos : 0 < m := lt_of_le_of_ne (hbudget m hm) (Ne.symm hm0)
      by_cases hc1 : coach.hourly_rate ≤ m
      · rw [if_pos hc1]
        by_cases hc2 : coach.hourly_rate ≤ m * (4/5)
        · rw [if_pos hc2]
          norm_num
        · rw [if_neg hc2]
          norm_num
      · rw [if_neg hc1]
        constructor
        · exact le_max_left 0 _
        · apply max_le (by norm_num)
          have hover : 0 < (coach.hourly_rate - m) / m :=
            div_pos (by linarith [not_le.mp hc1]) hmpos
          linarith

/-- The rating sub-score lies in `[0, 1]` when the rating and success rate
are non-negative. -/
lemma calculate_rating_score_bounds (coach : CoachProfile)
    (hrating : 0 ≤ coach.rating) (hsuccess : 0 ≤ coach.success_rate) :
    0 ≤ calculate_rating_score coach ∧ calculate_rating_score coach ≤ 1 := by
  unfold calculate_rating_score
  by_cases h : coach.rating = 0
  · rw [if_pos h]
    norm_num
  · rw [if_neg h]
    constructor
    · apply le_min _ zero_le_one
      have h1 : (0:ℚ) ≤ coach.rating / 5 := by positivity
      have h2 : (0:ℚ) ≤ min ((coach.total_sessions : ℚ) / 100) (1/5) :=
        le_min (by positivity) (by norm_num)
      have h3 : (0:ℚ) ≤ coach.success_rate * (1/10) := by positivity
      linarith
    · exact min_le_right _ _

/-- C1: for a valid (request, provider) pair — non-negative normalized
configuration weights, non-negative requirement weights, and provider and
request fields inside their declared pydantic ranges — the overall
`match_score` and each of the five sub-scores of
`_calculate_match_score` lie in `[0, 1]`. -/
theorem match_score_and_subscores_in_unit_interval
    (weights : MatchWeights) (coach : CoachProfile) (request : MatchingRequest)
    (hw_skills : 0 ≤ weights.skills) (hw_experience : 0 ≤ weights.experience)
    (hw_rating : 0 ≤ weights.rating) (hw_availability : 0 ≤ weights.availability)
    (hw_price : 0 ≤ weights.price)
    (_hw_sum : weights.skills + weights.experience + weights.rating +
      weights.availability + weights.price = 1)
    (hreq : ∀ t ∈ request.skills_required, 0 ≤ t.weight)
    (hflex : 0 ≤ request.availability_requirements.flexibility)
    (hrating : 0 ≤ coach.rating)
    (hsuccess : 0 ≤ coach.success_rate)
    (hbudget : ∀ m, request.budget_constraints.max_hourly_rate = some m → 0 ≤ m) :
    (0 ≤ (calculate_match_score weights coach request).match_score ∧
      (calculate_match_score weights coach request).match_score ≤ 1) ∧
    (0 ≤ (calculate_match_score weights coach request).skill_score ∧
      (calculate_match_score weights coach request).skill_score ≤ 1) ∧
    (0 ≤ (calculate_match_score weights coach request).experience_score ∧
      (calculate_match_score weights coach request).experience_score ≤ 1) ∧
    (0 ≤ (calculate_match_score weights coach request).availability_score ∧
      (calculate_match_score weights coach request).availability_score ≤ 1) ∧
    (0 ≤ (calculate_match_score weights coach request).price_score ∧
      (calculate_match_score weights coach request).price_score ≤ 1) ∧
    (0 ≤ (calculate_match_score weights coach request).rating_score ∧
      (calculate_match_score weights coach request).rating_score ≤ 1) := by
  have hs := calculate_skill_score_bounds coach request hreq
  have he := calculate_experience_score_bounds coach request
  have ha := calculate_availability_score_bounds coach request hflex
  have hp := calculate_price_score_bounds coach request hbudget
  have hr := calculate_rating_score_bounds coach hrating hsuccess
  refine ⟨?_, hs, he, ha, hp, hr⟩
  have hms : (calculate_match_score weights coach request).match_score =
      min (calculate_skill_score coach request * weights.skills +
        calculate_experience_score coach request * weights.experience +
        calculate_availability_score coach request * weights.availability +
        calculate_price_score coach request * weights.price +
        calculate_rating_score coach * weights.rating) 1 := rfl
  rw [hms]
  constructor
  · apply le_min _ zero_le_one
    have t1 := mul_nonneg hs.1 hw_skills
    have t2 := mul_nonneg he.1 hw_experience
    have t3 := mul_nonneg ha.1 hw_availability
    have t4 := mul_nonneg hp.1 hw_price
    have t5 := mul_nonneg hr.1 hw_rating
    linarith
  · exact min_le_right _ _

/-- Witness for C1: the default (normalized) weight configuration, the first
sample coach, and a concrete valid request. -/
theorem match_score_and_subscores_in_unit_interval_witness :
    0 ≤ (calculate_match_score default_weights mock_coach_sarah
      example_request).match_score ∧
    (calculate_match_score default_weights mock_coach_sarah
      example_request).match_score ≤ 1 :=
  have h := match_score_and_subscores_in_unit_interval default_weights
    mock_coach_sarah example_request
    (by norm_num [default_weights]) (by norm_num [default_weights])
    (by norm_num [default_weights]) (by norm_num [default_weights])
    (by norm_num [default_weights]) (by norm_num [default_weights])
    (by intro t ht; fin_cases ht <;> norm_num)
    (by norm_num [example_request])
    (by norm_num [mock_coach_sarah])
    (by norm_num [mock_coach_sarah])
    (by
      intro m hm
      have h2 : (50 : ℚ) = m := Option.some.inj hm
      rw [← h2]
      norm_num)
  ⟨h.1.1, h.1.2⟩

/-- Witness for C5 at a concrete roster and request: the returned list
respects the configured maximum length. -/
theorem find_matches_threshold_sorted_stable_truncated_witness :
    (find_matches default_weights default_min_match_score default_max_matches
      get_mock_coaches example_request_no_skills).length ≤ default_max_matches :=
  (find_matches_threshold_sorted_stable_truncated default_weights
    default_min_match_score default_max_matches get_mock_coaches
    example_request_no_skills).2.2.1
